import Mathlib

/-!
Formal model of the qpay-py client library (qpay-sdk/qpay-py).

The development shallowly embeds the authenticated-request core of the
library: token state and its storage (`QPayClient._store_token`), the
token-validity gatekeeper (`QPayClient._ensure_token`), the token-exchange
operations (`get_token`, `refresh_token`), the authenticated dispatcher
(`_do_request`), uniform error translation (`QPayError.from_response`),
and configuration loading (`QPayConfig.from_env`).  The asynchronous
client (`AsyncQPayClient`) is embedded separately from its own source
lines so that its equivalence with the synchronous client is a theorem,
not an assumption.  HTTP transport and `json.loads` are modelled as
oracles: each network call is parameterized by the transport outcome it
would observe, and a response carries both its raw text and the result of
JSON-decoding it.
-/

/-- A JSON value, as produced by Python's `json.loads`.  Numbers are
modelled as integers (the fields the library reads are integral). -/
inductive JsonVal where
  | jnull : JsonVal
  | jbool : Bool → JsonVal
  | jnum : Int → JsonVal
  | jstr : String → JsonVal
  | jarr : List JsonVal → JsonVal
  | jobj : List (String × JsonVal) → JsonVal

/-- Lookup of a key in the field list of a JSON object (Python `dict`
lookup; field lists stand for dicts, so keys are distinct). -/
def jLookup (k : String) : List (String × JsonVal) → Option JsonVal
  | [] => none
  | (k', v) :: rest => if k' = k then some v else jLookup k rest

/-- Lookup in a string-valued association list. -/
def sLookup (k : String) : List (String × String) → Option String
  | [] => none
  | (k', v) :: rest => if k' = k then some v else sLookup k rest

/-- Python truthiness of a JSON-decoded value (`if not code:` in
`QPayError.from_response`). -/
def jTruthy : JsonVal → Bool
  | .jnull => false
  | .jbool b => b
  | .jnum n => n != 0
  | .jstr s => s != ""
  | .jarr xs => !xs.isEmpty
  | .jobj fs => !fs.isEmpty

/-- `dict.get(key, default)` on a JSON object's field list. -/
def jGetD (fs : List (String × JsonVal)) (k : String) (default : JsonVal) : JsonVal :=
  (jLookup k fs).getD default

/-- Phrases of Python's `http.HTTPStatus` members: `HTTPStatus(s).phrase`,
`none` when the construction raises `ValueError` (unknown status). -/
def statusPhrase : Int → Option String
  | 100 => some "Continue"
  | 101 => some "Switching Protocols"
  | 102 => some "Processing"
  | 103 => some "Early Hints"
  | 200 => some "OK"
  | 201 => some "Created"
  | 202 => some "Accepted"
  | 203 => some "Non-Authoritative Information"
  | 204 => some "No Content"
  | 205 => some "Reset Content"
  | 206 => some "Partial Content"
  | 207 => some "Multi-Status"
  | 208 => some "Already Reported"
  | 226 => some "IM Used"
  | 300 => some "Multiple Choices"
  | 301 => some "Moved Permanently"
  | 302 => some "Found"
  | 303 => some "See Other"
  | 304 => some "Not Modified"
  | 305 => some "Use Proxy"
  | 307 => some "Temporary Redirect"
  | 308 => some "Permanent Redirect"
  | 400 => some "Bad Request"
  | 401 => some "Unauthorized"
  | 402 => some "Payment Required"
  | 403 => some "Forbidden"
  | 404 => some "Not Found"
  | 405 => some "Method Not Allowed"
  | 406 => some "Not Acceptable"
  | 407 => some "Proxy Authentication Required"
  | 408 => some "Request Timeout"
  | 409 => some "Conflict"
  | 410 => some "Gone"
  | 411 => some "Length Required"
  | 412 => some "Precondition Failed"
  | 413 => some "Request Entity Too Large"
  | 414 => some "Request-URI Too Long"
  | 415 => some "Unsupported Media Type"
  | 416 => some "Requested Range Not Satisfiable"
  | 417 => some "Expectation Failed"
  | 418 => some "I\x27m a Teapot"
  | 421 => some "Misdirected Request"
  | 422 => some "Unprocessable Entity"
  | 423 => some "Locked"
  | 424 => some "Failed Dependency"
  | 425 => some "Too Early"
  | 426 => some "Upgrade Required"
  | 428 => some "Precondition Required"
  | 429 => some "Too Many Requests"
  | 431 => some "Request Header Fields Too Large"
  | 451 => some "Unavailable For Legal Reasons"
  | 500 => some "Internal Server Error"
  | 501 => some "Not Implemented"
  | 502 => some "Bad Gateway"
  | 503 => some "Service Unavailable"
  | 504 => some "Gateway Timeout"
  | 505 => some "HTTP Version Not Supported"
  | 506 => some "Variant Also Negotiates"
  | 507 => some "Insufficient Storage"
  | 508 => some "Loop Detected"
  | 510 => some "Not Extended"
  | 511 => some "Network Authentication Required"
  | _ => none

/-- The data carried by a raised `QPayError` (errors.py, `QPayError`).
`code` and `message` hold whatever Python value was assigned, so they are
JSON values; fallback assignments wrap strings as `jstr`. -/
structure QPayErr where
  status_code : Int
  code : JsonVal
  message : JsonVal
  raw_body : String

/-- A Python exception escaping the modelled code: a raised `QPayError`,
an httpx transport-level error (identified abstractly), a JSON decode
failure from `response.json()`, or an `AttributeError` from calling
`.get` on a non-dict. -/
inductive PyExn where
  | qerr : QPayErr → PyExn
  | transportErr : Nat → PyExn
  | jsonDecodeErr : PyExn
  | attrErr : PyExn

/-- `QPayError.from_response(status_code, body)` (errors.py lines 23-55).
The body is given as its decoded text `content` together with the result
of `json.loads` on it (`none` when decoding raises, which the source
catches).  Calling `.get` on a decoded value that is not a dict raises
`AttributeError`, which the source does not catch. -/
def from_response (status_code : Int) (content : String) (decoded : Option JsonVal) :
    Except PyExn QPayErr :=
  -- raw_body = body.decode("utf-8", errors="replace"): `content` is that text.
  let step : Except PyExn (JsonVal × JsonVal) :=
    match decoded with
    | some (.jobj fs) => .ok (jGetD fs "error" (.jstr ""), jGetD fs "message" (.jstr ""))
    | some _ => .error .attrErr
    | none => .ok (.jstr "", .jstr "")
  match step with
  | .error e => .error e
  | .ok (code0, message0) =>
    let code := if jTruthy code0 then code0
      else .jstr (match statusPhrase status_code with
        | some p => p
        | none => toString status_code)
    let message := if jTruthy message0 then message0 else .jstr content
    .ok { status_code := status_code, code := code, message := message, raw_body := content }

/-- Configuration for the QPay client (config.py, `QPayConfig`). -/
structure QPayConfig where
  base_url : String
  username : String
  password : String
  invoice_code : String
  callback_url : String
deriving DecidableEq

/-- The `env_map` of `QPayConfig.from_env`, in insertion order. -/
def env_map : List (String × String) :=
  [("QPAY_BASE_URL", "base_url"),
   ("QPAY_USERNAME", "username"),
   ("QPAY_PASSWORD", "password"),
   ("QPAY_INVOICE_CODE", "invoice_code"),
   ("QPAY_CALLBACK_URL", "callback_url")]

/-- The loop of `QPayConfig.from_env`: for each entry, read
`os.environ.get(env_name, "")`, record the field value, and append the
env name to `missing` when the value is falsy.  The environment is a
partial map; `none` means the variable is unset. -/
def collect_env (env : String → Option String) :
    List (String × String) → List (String × String) × List String
  | [] => ([], [])
  | (env_name, field_name) :: rest =>
    let val := (env env_name).getD ""
    let rest_result := collect_env env rest
    ((field_name, val) :: rest_result.1,
     if val = "" then env_name :: rest_result.2 else rest_result.2)

/-- `QPayConfig.from_env` (config.py lines 19-55): collect the five
required variables, raise `ValueError` naming every missing one, else
build the config from the collected values (`values[field_name]`, which
equals `os.environ.get(env_name, "")`). -/
def from_env (env : String → Option String) : Except String QPayConfig :=
  let missing := (collect_env env env_map).2
  if missing = [] then
    .ok { base_url := (env "QPAY_BASE_URL").getD ""
        , username := (env "QPAY_USERNAME").getD ""
        , password := (env "QPAY_PASSWORD").getD ""
        , invoice_code := (env "QPAY_INVOICE_CODE").getD ""
        , callback_url := (env "QPAY_CALLBACK_URL").getD "" }
  else
    .error ("Required environment variable(s) not set: " ++ String.intercalate ", " missing)

/-- The required env names in iteration order. -/
def required_env_names : List String := env_map.map Prod.fst

/-- The env names whose value is unset or empty: the `missing` list the
from_env loop accumulates, characterized directly. -/
def missing_of (env : String → Option String) : List String :=
  (env_map.filter (fun p => (env p.1).getD "" = "")).map Prod.fst

/-- The text of the ValueError raised for a missing-variable list. -/
def missing_msg (missing : List String) : String :=
  "Required environment variable(s) not set: " ++ String.intercalate ", " missing

/-- The config built when nothing is missing: each field is the value of
its environment variable. -/
def config_of_env (env : String → Option String) : QPayConfig :=
  { base_url := (env "QPAY_BASE_URL").getD ""
  , username := (env "QPAY_USERNAME").getD ""
  , password := (env "QPAY_PASSWORD").getD ""
  , invoice_code := (env "QPAY_INVOICE_CODE").getD ""
  , callback_url := (env "QPAY_CALLBACK_URL").getD "" }

/-- Pointwise update of an environment. -/
def envSet (env : String → Option String) (name : String) (v : Option String) :
    String → Option String :=
  fun k => if k = name then v else env k

/-- Token response from the QPay auth endpoints (types.py, `TokenResponse`). -/
structure TokenResponse where
  token_type : String
  refresh_expires_in : Int
  refresh_token : String
  access_token : String
  expires_in : Int
  scope : String
  not_before_policy : String
  session_state : String
deriving DecidableEq

/-- `data.get(key, "")` for a string field of a decoded JSON object
(fields of a non-conforming type are outside the modelled behavior). -/
def getStrD (fs : List (String × JsonVal)) (k : String) : String :=
  match jLookup k fs with
  | some (.jstr s) => s
  | _ => ""

/-- `data.get(key, 0)` for an integer field of a decoded JSON object. -/
def getIntD (fs : List (String × JsonVal)) (k : String) : Int :=
  match jLookup k fs with
  | some (.jnum n) => n
  | _ => 0

/-- `TokenResponse.from_dict(data)` (types.py lines 25-36) applied to the
result of `response.json()`: `none` means the decode raised (propagates),
a non-dict decoded value makes `.get` raise `AttributeError`. -/
def tokenResponse_from_dict (decoded : Option JsonVal) : Except PyExn TokenResponse :=
  match decoded with
  | none => .error .jsonDecodeErr
  | some (.jobj fs) =>
    .ok { token_type := getStrD fs "token_type"
        , refresh_expires_in := getIntD fs "refresh_expires_in"
        , refresh_token := getStrD fs "refresh_token"
        , access_token := getStrD fs "access_token"
        , expires_in := getIntD fs "expires_in"
        , scope := getStrD fs "scope"
        , not_before_policy := getStrD fs "not-before-policy"
        , session_state := getStrD fs "session_state" }
  | some _ => .error .attrErr

/-- The mutable token fields of a client (client.py lines 53-56):
`_access_token`, `_refresh_token`, `_expires_at`, `_refresh_expires_at`.
Times are integer epoch seconds (`int(time.time())`). -/
structure TokenState where
  access_token : String
  refresh_token : String
  expires_at : Int
  refresh_expires_at : Int
deriving DecidableEq

/-- The state of a freshly constructed client. -/
def initialTokenState : TokenState :=
  { access_token := "", refresh_token := "", expires_at := 0, refresh_expires_at := 0 }

/-- `_store_token` (client.py lines 186-191): replace all four fields
from the response.  Note the expiry fields of the response are stored
directly as the absolute expiry instants. -/
def store_token (_s : TokenState) (token : TokenResponse) : TokenState :=
  { access_token := token.access_token
  , refresh_token := token.refresh_token
  , expires_at := token.expires_in
  , refresh_expires_at := token.refresh_expires_in }

/-- `_TOKEN_BUFFER_SECONDS` (client.py line 30). -/
def TOKEN_BUFFER_SECONDS : Int := 30

/-- An HTTP response as observed by the client: status code, decoded body
text, and the result of `response.json()` (`none` when the body is not
valid JSON). -/
structure HttpResponse where
  status : Int
  content : String
  decoded : Option JsonVal

/-- The outcome of one transport round trip: a response, or an
httpx-level transport exception (identified abstractly by a number). -/
def TransportResult := Except Nat HttpResponse

/-- An outbound HTTP request as the client builds it: method, absolute
URL, explicit headers, optional basic-auth credential pair, optional JSON
body. -/
structure OutRequest where
  method : String
  url : String
  headers : List (String × String)
  basic_auth : Option (String × String)
  body : Option JsonVal

/-- True when the status code is outside [200, 300) — the error check
`response.status_code < 200 or response.status_code >= 300`. -/
def statusIsError (status : Int) : Bool :=
  status < 200 || status ≥ 300

/-- Translate a non-2xx response into the raised exception: the
`QPayError` built by `from_response`, or whatever `from_response` itself
raised. -/
def raiseFromResponse (resp : HttpResponse) : PyExn :=
  match from_response resp.status resp.content resp.decoded with
  | .ok e => .qerr e
  | .error ex => ex

/-- `_do_refresh_token_http(refresh_tok)` (client.py lines 197-209):
build the refresh request, perform it, map a non-2xx status to a raised
`QPayError`, else parse the token response.  Returns the request issued
together with the outcome. -/
def do_refresh_token_http (cfg : QPayConfig) (refresh_tok : String)
    (tr : TransportResult) : OutRequest × Except PyExn TokenResponse :=
  let req : OutRequest :=
    { method := "POST"
    , url := cfg.base_url ++ "/v2/auth/refresh"
    , headers := [("Authorization", "Bearer " ++ refresh_tok)]
    , basic_auth := none
    , body := none }
  match tr with
  | .error n => (req, .error (.transportErr n))
  | .ok resp =>
    if statusIsError resp.status then
      (req, .error (raiseFromResponse resp))
    else
      (req, tokenResponse_from_dict resp.decoded)

/-- `_do_basic_auth_request(method, path)` (client.py lines 236-248). -/
def do_basic_auth_request (cfg : QPayConfig) (method path : String)
    (tr : TransportResult) : OutRequest × Except PyExn TokenResponse :=
  let req : OutRequest :=
    { method := method
    , url := cfg.base_url ++ path
    , headers := []
    , basic_auth := some (cfg.username, cfg.password)
    , body := none }
  match tr with
  | .error n => (req, .error (.transportErr n))
  | .ok resp =>
    if statusIsError resp.status then
      (req, .error (raiseFromResponse resp))
    else
      (req, tokenResponse_from_dict resp.decoded)

/-- `_get_token_request()` (client.py lines 193-195). -/
def get_token_request (cfg : QPayConfig) (tr : TransportResult) :
    OutRequest × Except PyExn TokenResponse :=
  do_basic_auth_request cfg "POST" "/v2/auth/token" tr

/-- The observable outcome of `_ensure_token`: the resulting token state,
the outbound requests issued (in order), and normal return or a raised
exception. -/
structure EnsureResult where
  state : TokenState
  trace : List OutRequest
  result : Except PyExn Unit

/-- `get_token()` outcome shape: state, requests, returned token or
raised exception. -/
structure OpResult where
  state : TokenState
  trace : List OutRequest
  result : Except PyExn TokenResponse

/-- `_ensure_token()` (client.py lines 161-184), sequentially: `now` is
the snapshot `int(time.time())`; `refreshTr` and `authTr` are the
transport outcomes the refresh and authentication calls would observe.
A refresh failure of any kind falls through to full authentication
(`except Exception: pass`). -/
def ensure_token (cfg : QPayConfig) (now : Int) (s : TokenState)
    (refreshTr authTr : TransportResult) : EnsureResult :=
  if s.access_token ≠ "" ∧ now < s.expires_at - TOKEN_BUFFER_SECONDS then
    { state := s, trace := [], result := .ok () }
  else
    let can_refresh := s.refresh_token ≠ "" ∧ now < s.refresh_expires_at - TOKEN_BUFFER_SECONDS
    let refresh_tok := s.refresh_token
    if can_refresh then
      match do_refresh_token_http cfg refresh_tok refreshTr with
      | (req, .ok token) =>
        { state := store_token s token, trace := [req], result := .ok () }
      | (req, .error _) =>
        -- except Exception: pass — fall through to full auth
        match get_token_request cfg authTr with
        | (req2, .ok token) =>
          { state := store_token s token, trace := [req, req2], result := .ok () }
        | (req2, .error e) =>
          { state := s, trace := [req, req2], result := .error e }
    else
      match get_token_request cfg authTr with
      | (req2, .ok token) =>
        { state := store_token s token, trace := [req2], result := .ok () }
      | (req2, .error e) =>
        { state := s, trace := [req2], result := .error e }

/-- `get_token()` (client.py lines 71-76): perform the basic-auth
exchange, store the pair on success, return it; a raised exception leaves
the state untouched. -/
def get_token (cfg : QPayConfig) (s : TokenState) (tr : TransportResult) : OpResult :=
  match get_token_request cfg tr with
  | (req, .ok token) =>
    { state := store_token s token, trace := [req], result := .ok token }
  | (req, .error e) =>
    { state := s, trace := [req], result := .error e }

/-- `refresh_token()` (client.py lines 78-85): read the stored refresh
token, perform the refresh exchange, store the pair on success. -/
def refresh_token (cfg : QPayConfig) (s : TokenState) (tr : TransportResult) : OpResult :=
  let refresh_tok := s.refresh_token
  match do_refresh_token_http cfg refresh_tok tr with
  | (req, .ok token) =>
    { state := store_token s token, trace := [req], result := .ok token }
  | (req, .error e) =>
    { state := s, trace := [req], result := .error e }

/-- The observable outcome of `_do_request`: resulting state, outbound
requests, and the decoded JSON body or raised exception. -/
structure RequestResult where
  state : TokenState
  trace : List OutRequest
  result : Except PyExn JsonVal

/-- `_do_request(method, path, body)` (client.py lines 211-234):
ensure a token, propagate its failure; build the authenticated request
(the bearer header reads `self._access_token` after `_ensure_token`);
translate non-2xx to a raised error; decode a non-empty body, return
`{}` for an empty one. -/
def do_request (cfg : QPayConfig) (method path : String) (body : Option JsonVal)
    (now : Int) (s : TokenState) (refreshTr authTr resTr : TransportResult) :
    RequestResult :=
  let e := ensure_token cfg now s refreshTr authTr
  match e.result with
  | .error ex => { state := e.state, trace := e.trace, result := .error ex }
  | .ok _ =>
    let req : OutRequest :=
      { method := method
      , url := cfg.base_url ++ path
      , headers := [("Content-Type", "application/json"),
                    ("Authorization", "Bearer " ++ e.state.access_token)]
      , basic_auth := none
      , body := body }
    match resTr with
    | .error n =>
      { state := e.state, trace := e.trace ++ [req], result := .error (.transportErr n) }
    | .ok resp =>
      if statusIsError resp.status then
        { state := e.state, trace := e.trace ++ [req]
        , result := .error (raiseFromResponse resp) }
      else if resp.content ≠ "" then
        match resp.decoded with
        | some j => { state := e.state, trace := e.trace ++ [req], result := .ok j }
        | none => { state := e.state, trace := e.trace ++ [req], result := .error .jsonDecodeErr }
      else
        { state := e.state, trace := e.trace ++ [req], result := .ok (.jobj []) }

/-!  The asynchronous client.  `AsyncQPayClient` (client.py lines
251-476) duplicates the synchronous logic with `await` at the network
calls and an `asyncio.Lock` in place of a `threading.Lock`; each of its
methods is embedded here from its own source lines. -/

/-- `AsyncQPayClient._do_refresh_token_http` (client.py lines 425-437). -/
def async_do_refresh_token_http (cfg : QPayConfig) (refresh_tok : String)
    (tr : TransportResult) : OutRequest × Except PyExn TokenResponse :=
  let req : OutRequest :=
    { method := "POST"
    , url := cfg.base_url ++ "/v2/auth/refresh"
    , headers := [("Authorization", "Bearer " ++ refresh_tok)]
    , basic_auth := none
    , body := none }
  match tr with
  | .error n => (req, .error (.transportErr n))
  | .ok resp =>
    if statusIsError resp.status then
      (req, .error (raiseFromResponse resp))
    else
      (req, tokenResponse_from_dict resp.decoded)

/-- `AsyncQPayClient._do_basic_auth_request` (client.py lines 464-476). -/
def async_do_basic_auth_request (cfg : QPayConfig) (method path : String)
    (tr : TransportResult) : OutRequest × Except PyExn TokenResponse :=
  let req : OutRequest :=
    { method := method
    , url := cfg.base_url ++ path
    , headers := []
    , basic_auth := some (cfg.username, cfg.password)
    , body := none }
  match tr with
  | .error n => (req, .error (.transportErr n))
  | .ok resp =>
    if statusIsError resp.status then
      (req, .error (raiseFromResponse resp))
    else
      (req, tokenResponse_from_dict resp.decoded)

/-- `AsyncQPayClient._get_token_request` (client.py lines 421-423). -/
def async_get_token_request (cfg : QPayConfig) (tr : TransportResult) :
    OutRequest × Except PyExn TokenResponse :=
  async_do_basic_auth_request cfg "POST" "/v2/auth/token" tr

/-- `AsyncQPayClient._ensure_token` (client.py lines 389-412). -/
def async_ensure_token (cfg : QPayConfig) (now : Int) (s : TokenState)
    (refreshTr authTr : TransportResult) : EnsureResult :=
  if s.access_token ≠ "" ∧ now < s.expires_at - TOKEN_BUFFER_SECONDS then
    { state := s, trace := [], result := .ok () }
  else
    let can_refresh := s.refresh_token ≠ "" ∧ now < s.refresh_expires_at - TOKEN_BUFFER_SECONDS
    let refresh_tok := s.refresh_token
    if can_refresh then
      match async_do_refresh_token_http cfg refresh_tok refreshTr with
      | (req, .ok token) =>
        { state := store_token s token, trace := [req], result := .ok () }
      | (req, .error _) =>
        match async_get_token_request cfg authTr with
        | (req2, .ok token) =>
          { state := store_token s token, trace := [req, req2], result := .ok () }
        | (req2, .error e) =>
          { state := s, trace := [req, req2], result := .error e }
    else
      match async_get_token_request cfg authTr with
      | (req2, .ok token) =>
        { state := store_token s token, trace := [req2], result := .ok () }
      | (req2, .error e) =>
        { state := s, trace := [req2], result := .error e }

/-- `AsyncQPayClient.get_token` (client.py lines 289-294). -/
def async_get_token (cfg : QPayConfig) (s : TokenState) (tr : TransportResult) : OpResult :=
  match async_get_token_request cfg tr with
  | (req, .ok token) =>
    { state := store_token s token, trace := [req], result := .ok token }
  | (req, .error e) =>
    { state := s, trace := [req], result := .error e }

/-- `AsyncQPayClient.refresh_token` (client.py lines 296-303). -/
def async_refresh_token (cfg : QPayConfig) (s : TokenState) (tr : TransportResult) : OpResult :=
  let refresh_tok := s.refresh_token
  match async_do_refresh_token_http cfg refresh_tok tr with
  | (req, .ok token) =>
    { state := store_token s token, trace := [req], result := .ok token }
  | (req, .error e) =>
    { state := s, trace := [req], result := .error e }

/-- `AsyncQPayClient._do_request` (client.py lines 439-462). -/
def async_do_request (cfg : QPayConfig) (method path : String) (body : Option JsonVal)
    (now : Int) (s : TokenState) (refreshTr authTr resTr : TransportResult) :
    RequestResult :=
  let e := async_ensure_token cfg now s refreshTr authTr
  match e.result with
  | .error ex => { state := e.state, trace := e.trace, result := .error ex }
  | .ok _ =>
    let req : OutRequest :=
      { method := method
      , url := cfg.base_url ++ path
      , headers := [("Content-Type", "application/json"),
                    ("Authorization", "Bearer " ++ e.state.access_token)]
      , basic_auth := none
      , body := body }
    match resTr with
    | .error n =>
      { state := e.state, trace := e.trace ++ [req], result := .error (.transportErr n) }
    | .ok resp =>
      if statusIsError resp.status then
        { state := e.state, trace := e.trace ++ [req]
        , result := .error (raiseFromResponse resp) }
      else if resp.content ≠ "" then
        match resp.decoded with
        | some j => { state := e.state, trace := e.trace ++ [req], result := .ok j }
        | none => { state := e.state, trace := e.trace ++ [req], result := .error .jsonDecodeErr }
      else
        { state := e.state, trace := e.trace ++ [req], result := .ok (.jobj []) }

/-!  Specification-side definitions.  These follow the wording of the
design spec (not the source) and exist to be compared with the
source-derived definitions above. -/

/-- Modelled from the spec, §4.1 `EnsureValid()`: (1) snapshot `now`;
(2) if `accessToken` non-empty and `now < accessExpiry - BUFFER`, return
immediately with zero network calls; (3) `canRefresh = refreshToken
non-empty AND now < refreshExpiry - BUFFER`; (4) if `canRefresh`, attempt
one refresh — success stores the pair and returns, any failure falls
through silently; (5) perform one full authentication, store on success,
and propagate its failure. -/
def spec_EnsureValid (cfg : QPayConfig) (now : Int) (s : TokenState)
    (refreshTr authTr : TransportResult) : EnsureResult :=
  if s.access_token ≠ "" ∧ now < s.expires_at - 30 then
    -- zero network calls, state unchanged
    { state := s, trace := [], result := .ok () }
  else
    let canRefresh := s.refresh_token ≠ "" ∧ now < s.refresh_expires_at - 30
    if canRefresh then
      -- exactly one refresh attempt
      match do_refresh_token_http cfg s.refresh_token refreshTr with
      | (refreshReq, .ok pair) =>
        { state := store_token s pair, trace := [refreshReq], result := .ok () }
      | (refreshReq, .error _) =>
        -- silent fall-through: the terminal authentication decides
        match get_token_request cfg authTr with
        | (authReq, .ok pair) =>
          { state := store_token s pair, trace := [refreshReq, authReq], result := .ok () }
        | (authReq, .error failure) =>
          { state := s, trace := [refreshReq, authReq], result := .error failure }
    else
      -- no usable refresh token: the terminal authentication decides
      match get_token_request cfg authTr with
      | (authReq, .ok pair) =>
        { state := store_token s pair, trace := [authReq], result := .ok () }
      | (authReq, .error failure) =>
        { state := s, trace := [authReq], result := .error failure }

/-- Modelled from the spec, §7 / C5: the error code is the wire `error`
field when present and non-empty, else the HTTP status phrase, else the
status number as a string. -/
def spec_errCode (status : Int) (errField : Option String) : String :=
  match errField with
  | some e => if e = "" then (statusPhrase status).getD (toString status) else e
  | none => (statusPhrase status).getD (toString status)

/-- Modelled from the spec, §7 / C5: the error message is the wire
`message` field when present and non-empty, else the raw body text. -/
def spec_errMessage (content : String) (msgField : Option String) : String :=
  match msgField with
  | some m => if m = "" then content else m
  | none => content

/-- A JSON object all of whose fields are strings, from a string
association list. -/
def strObj (kvs : List (String × String)) : JsonVal :=
  .jobj (kvs.map (fun p => (p.1, JsonVal.jstr p.2)))

/-!  Interleaving model of concurrent `_do_request` callers.

Each thread runs `_do_request`: the lock-protected check of
`_ensure_token` (one atomic step, since the lock is held), the refresh or
authentication network call (outside the lock), the lock-protected
`_store_token`, and finally the unlocked read of `self._access_token`
when building the bearer header (client.py line 224).  The scheduler may
interleave the atomic steps of different threads arbitrarily.  The
scenario of the spec's concurrency property: every token exchange against
the mock server succeeds with a fixed response. -/

/-- The control point of one thread inside `_do_request`. -/
inductive Phase where
  /-- about to run the lock-protected validity check of `_ensure_token` -/
  | start : Phase
  /-- performing the refresh network call (outside the lock) -/
  | refreshCall : Phase
  /-- about to run the lock-protected `_store_token` of the refresh response -/
  | storeRefresh : Phase
  /-- performing the full-authentication network call (outside the lock) -/
  | authCall : Phase
  /-- about to run the lock-protected `_store_token` of the auth response -/
  | storeAuth : Phase
  /-- `_ensure_token` returned; about to read `self._access_token`
  without the lock and issue the resource request -/
  | send : Phase
  /-- the resource request has been issued, carrying this bearer token -/
  | done : String → Phase
deriving DecidableEq

/-- The fixed scenario: the snapshot time and the token responses the
mock server returns for authentication and refresh exchanges. -/
structure C8Env where
  now : Int
  authResp : TokenResponse
  refreshResp : TokenResponse

/-- The shared client state plus each thread's control point.
`authCalls` counts the full-authentication exchanges performed (all of
which succeed in this scenario). -/
structure SysState where
  shared : TokenState
  threads : List Phase
  authCalls : Nat

/-- The lock-protected fast-path test of `_ensure_token`. -/
def tokenUsable (env : C8Env) (st : TokenState) : Prop :=
  st.access_token ≠ "" ∧ env.now < st.expires_at - TOKEN_BUFFER_SECONDS

/-- The lock-protected `can_refresh` test of `_ensure_token`. -/
def canRefreshNow (env : C8Env) (st : TokenState) : Prop :=
  st.refresh_token ≠ "" ∧ env.now < st.refresh_expires_at - TOKEN_BUFFER_SECONDS

/-- One atomic step of one thread, chosen nondeterministically.  A thread
at `Phase.start` holds the lock for the validity check; threads at
`refreshCall`/`authCall` are in a network call outside the lock; store
phases hold the lock for `_store_token`; `send` reads the shared access
token without the lock.  A refresh call may fail (any exception), falling
through to full authentication; authentication succeeds in this
scenario. -/
inductive Step (env : C8Env) : SysState → SysState → Prop where
  | start_fast (sys : SysState) (l₁ l₂ : List Phase)
      (hth : sys.threads = l₁ ++ Phase.start :: l₂)
      (hv : tokenUsable env sys.shared) :
      Step env sys { sys with threads := l₁ ++ Phase.send :: l₂ }
  | start_refresh (sys : SysState) (l₁ l₂ : List Phase)
      (hth : sys.threads = l₁ ++ Phase.start :: l₂)
      (hv : ¬ tokenUsable env sys.shared)
      (hcr : canRefreshNow env sys.shared) :
      Step env sys { sys with threads := l₁ ++ Phase.refreshCall :: l₂ }
  | start_auth (sys : SysState) (l₁ l₂ : List Phase)
      (hth : sys.threads = l₁ ++ Phase.start :: l₂)
      (hv : ¬ tokenUsable env sys.shared)
      (hcr : ¬ canRefreshNow env sys.shared) :
      Step env sys { sys with threads := l₁ ++ Phase.authCall :: l₂ }
  | refresh_ok (sys : SysState) (l₁ l₂ : List Phase)
      (hth : sys.threads = l₁ ++ Phase.refreshCall :: l₂) :
      Step env sys { sys with threads := l₁ ++ Phase.storeRefresh :: l₂ }
  | refresh_fail (sys : SysState) (l₁ l₂ : List Phase)
      (hth : sys.threads = l₁ ++ Phase.refreshCall :: l₂) :
      Step env sys { sys with threads := l₁ ++ Phase.authCall :: l₂ }
  | do_store_refresh (sys : SysState) (l₁ l₂ : List Phase)
      (hth : sys.threads = l₁ ++ Phase.storeRefresh :: l₂) :
      Step env sys { shared := store_token sys.shared env.refreshResp
                   , threads := l₁ ++ Phase.send :: l₂
                   , authCalls := sys.authCalls }
  | do_auth_call (sys : SysState) (l₁ l₂ : List Phase)
      (hth : sys.threads = l₁ ++ Phase.authCall :: l₂) :
      Step env sys { shared := sys.shared
                   , threads := l₁ ++ Phase.storeAuth :: l₂
                   , authCalls := sys.authCalls + 1 }
  | do_store_auth (sys : SysState) (l₁ l₂ : List Phase)
      (hth : sys.threads = l₁ ++ Phase.storeAuth :: l₂) :
      Step env sys { shared := store_token sys.shared env.authResp
                   , threads := l₁ ++ Phase.send :: l₂
                   , authCalls := sys.authCalls }
  | do_send (sys : SysState) (l₁ l₂ : List Phase)
      (hth : sys.threads = l₁ ++ Phase.send :: l₂) :
      Step env sys { sys with threads := l₁ ++ Phase.done sys.shared.access_token :: l₂ }

/-- The system immediately after client construction: empty token state,
`n` threads each about to make its first request. -/
def initSys (n : Nat) : SysState :=
  { shared := initialTokenState
  , threads := List.replicate n Phase.start
  , authCalls := 0 }

/-- Every operation has issued its resource request. -/
def allDone (sys : SysState) : Prop :=
  ∀ ph ∈ sys.threads, ∃ b, ph = Phase.done b

/-- Rank of a phase: an upper bound on the steps a thread may still
take. -/
def phaseRank : Phase → Nat
  | .start => 5
  | .refreshCall => 4
  | .storeRefresh => 2
  | .authCall => 3
  | .storeAuth => 2
  | .send => 1
  | .done _ => 0

/-- Termination measure of the system. -/
def sysMeasure (sys : SysState) : Nat :=
  (sys.threads.map phaseRank).sum

/-- Per-thread invariant: a thread past the first check implies a
successful authentication has happened, and a thread about to read the
bearer token (or done) sees a non-empty one. -/
def PhaseInv (sys : SysState) : Phase → Prop
  | .start => True
  | .refreshCall => 1 ≤ sys.authCalls
  | .storeRefresh => 1 ≤ sys.authCalls
  | .authCall => True
  | .storeAuth => 1 ≤ sys.authCalls
  | .send => sys.shared.access_token ≠ "" ∧ 1 ≤ sys.authCalls
  | .done b => b ≠ "" ∧ 1 ≤ sys.authCalls

/-- The global invariant of the 50-thread scenario. -/
def SysInv (n : Nat) (sys : SysState) : Prop :=
  sys.threads.length = n
  ∧ ((sys.shared.access_token ≠ "" ∨ sys.shared.refresh_token ≠ "") → 1 ≤ sys.authCalls)
  ∧ ∀ ph ∈ sys.threads, PhaseInv sys ph

/-- The benign-server scenario: every exchange returns a token pair with
a non-empty access token. -/
def envOk (env : C8Env) : Prop :=
  env.authResp.access_token ≠ "" ∧ env.refreshResp.access_token ≠ ""

/-!  Concrete fixtures used to instantiate theorems. -/

/-- A sample configuration. -/
def cfgA : QPayConfig :=
  { base_url := "https://merchant.qpay.mn"
  , username := "test_user"
  , password := "test_pass"
  , invoice_code := "TEST_INVOICE"
  , callback_url := "https://example.com/callback" }

/-- A sample token response: expiry fields 3600 and 7200. -/
def tokenRespA : TokenResponse :=
  { token_type := "Bearer"
  , refresh_expires_in := 7200
  , refresh_token := "r1"
  , access_token := "a1"
  , expires_in := 3600
  , scope := ""
  , not_before_policy := ""
  , session_state := "" }

/-- The wire form of `tokenRespA` as a 200 response. -/
def respA : HttpResponse :=
  { status := 200
  , content := "tokenbody"
  , decoded := some (.jobj
      [ ("token_type", .jstr "Bearer")
      , ("refresh_expires_in", .jnum 7200)
      , ("refresh_token", .jstr "r1")
      , ("access_token", .jstr "a1")
      , ("expires_in", .jnum 3600) ]) }

/-- A token state holding a currently valid access token at time 0. -/
def validState : TokenState :=
  { access_token := "tok", refresh_token := "", expires_at := 1000, refresh_expires_at := 0 }

/-- A successful 200 response with an empty body (delete-style). -/
def respEmpty : HttpResponse :=
  { status := 200, content := "", decoded := none }

/-- The body text of the sample 401 authentication failure. -/
def body401 : String :=
  "\x7b\"error\": \"AUTHENTICATION_FAILED\", \"message\": \"Bad credentials\"\x7d"

/-- An environment with every QPay variable set to "x". -/
def envAllX : String → Option String := fun _ => some "x"

/-- An environment with no variable set. -/
def envNone : String → Option String := fun _ => none

/-- The scenario environment for the concurrency theorem. -/
def c8EnvA : C8Env := { now := 0, authResp := tokenRespA, refreshResp := tokenRespA }

/-!  Theorems. -/

/-- C1 counterexample: for the sample exchange whose response carries
`expires_in = 3600` and `refresh_expires_in = 7200`, completing at time
`t = 1000`, the stored state does not satisfy `accessExpiry = t + n`
(nor `refreshExpiry = t + m`): `_store_token` stores the response's
expiry fields directly, unmodified by the completion time. -/
theorem c1_counterexample :
    (get_token cfgA initialTokenState (Except.ok respA)).result = Except.ok tokenRespA ∧
    (get_token cfgA initialTokenState (Except.ok respA)).state.expires_at ≠ 1000 + 3600 ∧
    (get_token cfgA initialTokenState (Except.ok respA)).state.refresh_expires_at ≠ 1000 + 7200 := by
  refine ⟨rfl, by decide, by decide⟩

/-- C1 (amended): for every successful token exchange, the state stored
by `_store_token` satisfies `accessExpiry = n` and `refreshExpiry = m`
where `n`, `m` are the response's expiry fields — the fields are treated
as absolute instants and stored unchanged, for any completion time. -/
theorem c1_store_token_expiry (cfg : QPayConfig) (s : TokenState) (tr : TransportResult)
    (token : TokenResponse) (h : (get_token cfg s tr).result = Except.ok token) :
    (get_token cfg s tr).state.expires_at = token.expires_in ∧
    (get_token cfg s tr).state.refresh_expires_at = token.refresh_expires_in ∧
    (get_token cfg s tr).state.access_token = token.access_token ∧
    (get_token cfg s tr).state.refresh_token = token.refresh_token := by
  rcases hq : get_token_request cfg tr with ⟨req, r⟩
  cases r with
  | ok tok =>
    have hs : get_token cfg s tr =
        { state := store_token s tok, trace := [req], result := .ok tok } := by
      unfold get_token
      rw [hq]
    rw [hs] at h ⊢
    simp only [Except.ok.injEq] at h
    subst h
    exact ⟨rfl, rfl, rfl, rfl⟩
  | error e =>
    have hs : get_token cfg s tr =
        { state := s, trace := [req], result := .error e } := by
      unfold get_token
      rw [hq]
    rw [hs] at h
    simp at h

/-- C1 witness: the amended statement at the sample exchange. -/
theorem c1_store_token_expiry_witness :
    (get_token cfgA initialTokenState (Except.ok respA)).result = Except.ok tokenRespA ∧
    ((get_token cfgA initialTokenState (Except.ok respA)).state.expires_at = tokenRespA.expires_in ∧
     (get_token cfgA initialTokenState (Except.ok respA)).state.refresh_expires_at = tokenRespA.refresh_expires_in ∧
     (get_token cfgA initialTokenState (Except.ok respA)).state.access_token = tokenRespA.access_token ∧
     (get_token cfgA initialTokenState (Except.ok respA)).state.refresh_token = tokenRespA.refresh_token) :=
  ⟨rfl, c1_store_token_expiry cfgA initialTokenState (Except.ok respA) tokenRespA rfl⟩

/-- C2: `_ensure_token` implements the spec's `EnsureValid()` algorithm
exactly: for every token state, time, and transport behavior, its
resulting state, its sequence of network calls (none on the fast path,
exactly one refresh when `canRefresh`, one terminal authentication
otherwise or after a silently swallowed refresh failure), and its
overall success or failure coincide with the algorithm of §4.1. -/
theorem c2_ensure_valid_algorithm (cfg : QPayConfig) (now : Int) (s : TokenState)
    (refreshTr authTr : TransportResult) :
    ensure_token cfg now s refreshTr authTr = spec_EnsureValid cfg now s refreshTr authTr :=
  rfl

/-- C4: the synchronous and asynchronous clients behave identically: for
every configuration, initial token state, current time, and transport
responses, `_ensure_token`, `get_token`, `refresh_token` and
`_do_request` of the two clients produce the same state, issue the same
outbound requests, and return the same result or raise the same error. -/
theorem c4_sync_async_equivalence (cfg : QPayConfig) (now : Int) (s : TokenState)
    (refreshTr authTr trG trR resTr : TransportResult)
    (method path : String) (body : Option JsonVal) :
    async_ensure_token cfg now s refreshTr authTr = ensure_token cfg now s refreshTr authTr ∧
    async_get_token cfg s trG = get_token cfg s trG ∧
    async_refresh_token cfg s trR = refresh_token cfg s trR ∧
    async_do_request cfg method path body now s refreshTr authTr resTr
      = do_request cfg method path body now s refreshTr authTr resTr :=
  ⟨rfl, rfl, rfl, rfl⟩

/-- Looking a key up in a string-object's field list finds the `jstr` of
the string lookup. -/
theorem jLookup_strObj (k : String) (kvs : List (String × String)) :
    jLookup k (kvs.map (fun p => (p.1, JsonVal.jstr p.2))) = (sLookup k kvs).map JsonVal.jstr := by
  induction kvs with
  | nil => rfl
  | cons hd tl ih =>
    obtain ⟨a, b⟩ := hd
    by_cases h : a = k <;> simp [jLookup, sLookup, h, ih]

/-- Object-case evaluation of `from_response`. -/
theorem from_response_obj (s : Int) (content : String) (fs : List (String × JsonVal)) :
    from_response s content (some (.jobj fs)) =
      Except.ok { status_code := s
                , code := if jTruthy (jGetD fs "error" (.jstr ""))
                            then jGetD fs "error" (.jstr "")
                            else .jstr ((statusPhrase s).getD (toString s))
                , message := if jTruthy (jGetD fs "message" (.jstr ""))
                            then jGetD fs "message" (.jstr "")
                            else .jstr content
                , raw_body := content } := by
  unfold from_response
  dsimp only
  rcases statusPhrase s with _ | p <;>
    rcases jTruthy (jGetD fs "error" (.jstr "")) <;>
      rcases jTruthy (jGetD fs "message" (.jstr "")) <;> simp_all

/-- Undecodable-body evaluation of `from_response`. -/
theorem from_response_none (s : Int) (content : String) :
    from_response s content none =
      Except.ok { status_code := s
                , code := .jstr ((statusPhrase s).getD (toString s))
                , message := .jstr content
                , raw_body := content } := by
  unfold from_response
  dsimp only
  norm_num [jTruthy]
  rcases statusPhrase s with _ | p <;> rfl

/-- C5: for every status and JSON-object body with string fields, the
`QPayError` built by `from_response` carries that status; its code is the
`error` field when present and non-empty, else the HTTP status phrase,
else the status number; its message is the `message` field when present
and non-empty, else the raw body.  In particular the sample 401 yields
code AUTHENTICATION_FAILED and message "Bad credentials". -/
theorem c5_error_translation (s : Int) (content : String) (kvs : List (String × String)) :
    from_response s content (some (strObj kvs)) =
      Except.ok { status_code := s
                , code := .jstr (spec_errCode s (sLookup "error" kvs))
                , message := .jstr (spec_errMessage content (sLookup "message" kvs))
                , raw_body := content } ∧
    from_response s content none =
      Except.ok { status_code := s
                , code := .jstr (spec_errCode s none)
                , message := .jstr (spec_errMessage content none)
                , raw_body := content } ∧
    from_response 401 body401
        (some (strObj [("error", "AUTHENTICATION_FAILED"), ("message", "Bad credentials")])) =
      Except.ok { status_code := 401
                , code := .jstr "AUTHENTICATION_FAILED"
                , message := .jstr "Bad credentials"
                , raw_body := body401 } := by
  refine ⟨?_, ?_, ?_⟩
  · rw [strObj, from_response_obj]
    unfold jGetD
    rw [jLookup_strObj, jLookup_strObj]
    rcases he : sLookup "error" kvs with _ | ev <;>
      rcases hm : sLookup "message" kvs with _ | mv <;>
        simp only [Option.map_none, Option.map_some, Option.getD_some, Option.getD_none,
          spec_errCode, spec_errMessage] <;>
      first
      | rfl
      | (by_cases hev : ev = "" <;> by_cases hmv : mv = "" <;>
          simp [jTruthy, hev, hmv])
      | (by_cases hev : ev = "" <;> simp [jTruthy, hev])
      | (by_cases hmv : mv = "" <;> simp [jTruthy, hmv])
  · rw [from_response_none]
    simp [spec_errCode, spec_errMessage]
  · rfl

/-- C10: `from_response` returns a `QPayError` for every body that fails
to parse or parses to a JSON object, but a body that is valid non-object
JSON (for example `[1]` or `"x"`) makes the field lookup raise an
`AttributeError` — an exception that is not a `QPayError` — because only
JSON decode errors are caught. -/
theorem c10_from_response_totality :
    (∀ (s : Int) (content : String) (fs : List (String × JsonVal)),
      ∃ e, from_response s content (some (.jobj fs)) = Except.ok e) ∧
    (∀ (s : Int) (content : String),
      ∃ e, from_response s content none = Except.ok e) ∧
    from_response 500 "[1]" (some (.jarr [.jnum 1])) = Except.error PyExn.attrErr ∧
    from_response 500 "\"x\"" (some (.jstr "x")) = Except.error PyExn.attrErr := by
  refine ⟨fun s content fs => ⟨_, rfl⟩, fun s content => ⟨_, rfl⟩, rfl, rfl⟩

/-- C7: for every response to an authenticated request with a successful
status, `_do_request` returns the JSON-decoded body when the body is
non-empty, and an empty object when the body is empty, so delete-style
operations on a 200 with empty body complete with a void result. -/
theorem c7_success_decoding (cfg : QPayConfig) (method path : String) (body : Option JsonVal)
    (now : Int) (s : TokenState) (refreshTr authTr : TransportResult) (resp : HttpResponse)
    (h1 : 200 ≤ resp.status) (h2 : resp.status < 300)
    (h3 : (ensure_token cfg now s refreshTr authTr).result = .ok ()) :
    (do_request cfg method path body now s refreshTr authTr (.ok resp)).result =
      (if resp.content = "" then .ok (.jobj [])
       else match resp.decoded with
            | some j => .ok j
            | none => .error .jsonDecodeErr) := by
  have hst : statusIsError resp.status = false := by
    simp only [statusIsError, Bool.or_eq_false_iff, decide_eq_false_iff_not, not_lt, not_le]
    omega
  unfold do_request
  dsimp only
  rw [h3]
  simp only [hst, Bool.false_eq_true, if_false]
  by_cases hc : resp.content = ""
  · simp [hc]
  · simp only [hc]
    rcases resp.decoded with _ | j <;> simp [hc]

/-- C7 witness: a DELETE on an invoice with a valid stored token and a
200 empty-body response yields a successful empty result. -/
theorem c7_success_decoding_witness :
    (200 : Int) ≤ respEmpty.status ∧ respEmpty.status < 300 ∧
    (ensure_token cfgA 0 validState (.error 0) (.error 0)).result = .ok () ∧
    (do_request cfgA "DELETE" "/v2/invoice/inv-123" none 0 validState
        (.error 0) (.error 0) (.ok respEmpty)).result = .ok (.jobj []) :=
  ⟨by decide, by decide, rfl,
    c7_success_decoding cfgA "DELETE" "/v2/invoice/inv-123" none 0 validState
      (.error 0) (.error 0) respEmpty (by decide) (by decide) rfl⟩

/-- If `_ensure_token` raises, the token state is unchanged. -/
theorem ensure_token_error_state (cfg : QPayConfig) (now : Int) (s : TokenState)
    (refreshTr authTr : TransportResult) (e : PyExn) :
    (ensure_token cfg now s refreshTr authTr).result = .error e →
    (ensure_token cfg now s refreshTr authTr).state = s := by
  unfold ensure_token
  split
  · intro _
    rfl
  · dsimp only
    split
    · rcases hdr : do_refresh_token_http cfg s.refresh_token refreshTr with ⟨req, r⟩
      cases r with
      | ok tok =>
        intro h
        simp at h
      | error e1 =>
        dsimp only
        rcases hga : get_token_request cfg authTr with ⟨req2, r2⟩
        cases r2 with
        | ok tok =>
          intro h
          simp at h
        | error e2 =>
          intro _
          rfl
    · rcases hga : get_token_request cfg authTr with ⟨req2, r2⟩
      cases r2 with
      | ok tok =>
        intro h
        simp at h
      | error e2 =>
        intro _
        rfl

/-- The state left by `get_token` as a function of its result. -/
theorem get_token_state_eq (cfg : QPayConfig) (s : TokenState) (tr : TransportResult) :
    (get_token cfg s tr).state =
      (match (get_token cfg s tr).result with
       | .ok token =>
         { access_token := token.access_token
         , refresh_token := token.refresh_token
         , expires_at := token.expires_in
         , refresh_expires_at := token.refresh_expires_in }
       | .error _ => s) := by
  unfold get_token
  rcases hq : get_token_request cfg tr with ⟨req, r⟩
  cases r <;> rfl

/-- The state left by `refresh_token` as a function of its result. -/
theorem refresh_token_state_eq (cfg : QPayConfig) (s : TokenState) (tr : TransportResult) :
    (refresh_token cfg s tr).state =
      (match (refresh_token cfg s tr).result with
       | .ok token =>
         { access_token := token.access_token
         , refresh_token := token.refresh_token
         , expires_at := token.expires_in
         , refresh_expires_at := token.refresh_expires_in }
       | .error _ => s) := by
  unfold refresh_token
  dsimp only
  rcases hq : do_refresh_token_http cfg s.refresh_token tr with ⟨req, r⟩
  cases r <;> rfl

/-- C3: token exchanges are atomic: a failed `get_token`,
`refresh_token`, or `_ensure_token` leaves all four stored token fields
exactly as they were, and a successful exchange replaces all four
together from the single response. -/
theorem c3_token_exchange_atomicity (cfg : QPayConfig) (s : TokenState)
    (trG trR : TransportResult) (now : Int) (refreshTr authTr : TransportResult)
    (e : PyExn) (h : (ensure_token cfg now s refreshTr authTr).result = .error e) :
    ((get_token cfg s trG).state =
      (match (get_token cfg s trG).result with
       | .ok token =>
         { access_token := token.access_token
         , refresh_token := token.refresh_token
         , expires_at := token.expires_in
         , refresh_expires_at := token.refresh_expires_in }
       | .error _ => s)) ∧
    ((refresh_token cfg s trR).state =
      (match (refresh_token cfg s trR).result with
       | .ok token =>
         { access_token := token.access_token
         , refresh_token := token.refresh_token
         , expires_at := token.expires_in
         , refresh_expires_at := token.refresh_expires_in }
       | .error _ => s)) ∧
    (ensure_token cfg now s refreshTr authTr).state = s :=
  ⟨get_token_state_eq cfg s trG, refresh_token_state_eq cfg s trR,
    ensure_token_error_state cfg now s refreshTr authTr e h⟩

/-- C3 witness: with an empty initial state and a failing transport, the
terminal authentication fails and the state is untouched. -/
theorem c3_token_exchange_atomicity_witness :
    (ensure_token cfgA 0 initialTokenState (Except.error 1) (Except.error 7)).result
      = Except.error (PyExn.transportErr 7) ∧
    ((get_token cfgA initialTokenState (Except.error 2)).state =
      (match (get_token cfgA initialTokenState (Except.error 2)).result with
       | .ok token =>
         { access_token := token.access_token
         , refresh_token := token.refresh_token
         , expires_at := token.expires_in
         , refresh_expires_at := token.refresh_expires_in }
       | .error _ => initialTokenState) ∧
     (refresh_token cfgA initialTokenState (Except.error 3)).state =
      (match (refresh_token cfgA initialTokenState (Except.error 3)).result with
       | .ok token =>
         { access_token := token.access_token
         , refresh_token := token.refresh_token
         , expires_at := token.expires_in
         , refresh_expires_at := token.refresh_expires_in }
       | .error _ => initialTokenState) ∧
     (ensure_token cfgA 0 initialTokenState (Except.error 1) (Except.error 7)).state
       = initialTokenState) :=
  ⟨rfl, c3_token_exchange_atomicity cfgA initialTokenState (Except.error 2) (Except.error 3)
    0 (Except.error 1) (Except.error 7) (PyExn.transportErr 7) rfl⟩

/-- The `missing` list accumulated by the from_env loop is exactly the
required entries whose value is unset or empty, in order. -/
theorem collect_env_snd (env : String → Option String) (l : List (String × String)) :
    (collect_env env l).2 = (l.filter (fun p => (env p.1).getD "" = "")).map Prod.fst := by
  induction l with
  | nil => rfl
  | cons hd tl ih =>
    obtain ⟨a, b⟩ := hd
    by_cases h : (env a).getD "" = "" <;>
      simp [collect_env, List.filter_cons, h, ih]

/-- Full characterization of `from_env`: it fails exactly when some
required variable is missing, the error message lists every missing
name, and on success each field is its variable's value. -/
theorem from_env_characterization (env : String → Option String) :
    from_env env = (if missing_of env = [] then .ok (config_of_env env)
                    else .error (missing_msg (missing_of env))) := by
  unfold from_env
  rw [show (collect_env env env_map).2 = missing_of env from by
    rw [collect_env_snd]
    rfl]
  rfl

/-- C6: `from_env` raises a configuration error exactly when at least
one of the five required variables is missing; the single error lists
every missing name (the full `missing` list joined into one message, not
just the first); otherwise it returns the config whose five fields equal
the corresponding environment values. -/
theorem c6_from_env_completeness (env : String → Option String) :
    from_env env = (if missing_of env = [] then Except.ok (config_of_env env)
                    else Except.error (missing_msg (missing_of env))) :=
  from_env_characterization env

/-- `from_env` depends on the environment only through
`os.environ.get(name, "")`. -/
theorem from_env_ext (env env' : String → Option String)
    (h : ∀ k, (env k).getD "" = (env' k).getD "") :
    from_env env = from_env env' := by
  have hc : ∀ l, collect_env env l = collect_env env' l := by
    intro l
    induction l with
    | nil => rfl
    | cons hd tl ih =>
      obtain ⟨a, b⟩ := hd
      simp [collect_env, h a, ih]
  unfold from_env
  rw [hc]
  simp only [h]

/-- A required variable whose value is unset or empty appears in the
missing list. -/
theorem mem_missing_of (env : String → Option String) (p : String × String)
    (hp : p ∈ env_map) (h : (env p.1).getD "" = "") : p.1 ∈ missing_of env := by
  unfold missing_of
  exact List.mem_map.mpr ⟨p, List.mem_filter.mpr ⟨hp, by simp [h]⟩, rfl⟩

/-- When nothing is missing, every required variable has a non-empty
value. -/
theorem missing_of_nil_value (env : String → Option String) (p : String × String)
    (hp : p ∈ env_map) (hm : missing_of env = []) : (env p.1).getD "" ≠ "" := by
  intro hc
  have := mem_missing_of env p hp hc
  simp [hm] at this

/-- C9: a required variable set to the empty string is treated exactly
as if it were unset — `from_env` behaves identically, the name appears
in the missing list of the raised error — and a config can never be
obtained from the environment with any of the five fields empty. -/
theorem c9_empty_env_var (env env2 : String → Option String) (name : String)
    (cfg : QPayConfig) (h1 : name ∈ required_env_names) (h2 : from_env env2 = .ok cfg) :
    from_env (envSet env name (some "")) = from_env (envSet env name none) ∧
    name ∈ missing_of (envSet env name (some "")) ∧
    from_env (envSet env name (some ""))
      = .error (missing_msg (missing_of (envSet env name (some "")))) ∧
    cfg.base_url ≠ "" ∧ cfg.username ≠ "" ∧ cfg.password ≠ "" ∧
    cfg.invoice_code ≠ "" ∧ cfg.callback_url ≠ "" := by
  obtain ⟨p, hp, hpn⟩ := List.mem_map.mp h1
  have hB : name ∈ missing_of (envSet env name (some "")) := by
    refine hpn ▸ mem_missing_of _ p hp ?_
    simp [envSet, hpn]
  refine ⟨?_, hB, ?_, ?_⟩
  · apply from_env_ext
    intro k
    by_cases hk : k = name <;> simp [envSet, hk]
  · rw [from_env_characterization, if_neg]
    intro hnil
    rw [hnil] at hB
    simp at hB
  · have hm2 : missing_of env2 = [] := by
      by_contra hne
      rw [from_env_characterization, if_neg hne] at h2
      cases h2
    have hcfg : cfg = config_of_env env2 := by
      rw [from_env_characterization, if_pos hm2] at h2
      cases h2
      rfl
    subst hcfg
    exact ⟨missing_of_nil_value env2 ("QPAY_BASE_URL", "base_url") (by simp [env_map]) hm2,
           missing_of_nil_value env2 ("QPAY_USERNAME", "username") (by simp [env_map]) hm2,
           missing_of_nil_value env2 ("QPAY_PASSWORD", "password") (by simp [env_map]) hm2,
           missing_of_nil_value env2 ("QPAY_INVOICE_CODE", "invoice_code") (by simp [env_map]) hm2,
           missing_of_nil_value env2 ("QPAY_CALLBACK_URL", "callback_url") (by simp [env_map]) hm2⟩

/-- C9 witness: with QPAY_USERNAME set to the empty string, `from_env`
behaves as if it were unset and reports it missing. -/
theorem c9_empty_env_var_witness :
    "QPAY_USERNAME" ∈ required_env_names ∧
    from_env envAllX = Except.ok
      { base_url := "x", username := "x", password := "x"
      , invoice_code := "x", callback_url := "x" } ∧
    (from_env (envSet envNone "QPAY_USERNAME" (some ""))
        = from_env (envSet envNone "QPAY_USERNAME" none) ∧
     "QPAY_USERNAME" ∈ missing_of (envSet envNone "QPAY_USERNAME" (some "")) ∧
     from_env (envSet envNone "QPAY_USERNAME" (some ""))
        = .error (missing_msg (missing_of (envSet envNone "QPAY_USERNAME" (some "")))) ∧
     ({ base_url := "x", username := "x", password := "x"
      , invoice_code := "x", callback_url := "x" } : QPayConfig).base_url ≠ "" ∧
     ({ base_url := "x", username := "x", password := "x"
      , invoice_code := "x", callback_url := "x" } : QPayConfig).username ≠ "" ∧
     ({ base_url := "x", username := "x", password := "x"
      , invoice_code := "x", callback_url := "x" } : QPayConfig).password ≠ "" ∧
     ({ base_url := "x", username := "x", password := "x"
      , invoice_code := "x", callback_url := "x" } : QPayConfig).invoice_code ≠ "" ∧
     ({ base_url := "x", username := "x", password := "x"
      , invoice_code := "x", callback_url := "x" } : QPayConfig).callback_url ≠ "") :=
  ⟨by simp [required_env_names, env_map], rfl,
   c9_empty_env_var envNone envAllX "QPAY_USERNAME"
     { base_url := "x", username := "x", password := "x"
     , invoice_code := "x", callback_url := "x" }
     (by simp [required_env_names, env_map]) rfl⟩

/-- `PhaseInv` is stable under growing the auth-call count and preserving
non-emptiness of the shared access token. -/
theorem PhaseInv_mono {sys sys' : SysState}
    (hac : sys.authCalls ≤ sys'.authCalls)
    (htok : sys.shared.access_token ≠ "" → sys'.shared.access_token ≠ "")
    (q : Phase) (h : PhaseInv sys q) : PhaseInv sys' q := by
  cases q with
  | start => trivial
  | authCall => trivial
  | refreshCall => exact le_trans h hac
  | storeRefresh => exact le_trans h hac
  | storeAuth => exact le_trans h hac
  | send => exact ⟨htok h.1, le_trans h.2 hac⟩
  | done b => exact ⟨h.1, le_trans h.2 hac⟩

/-- Stepping one thread preserves the per-thread invariants, given the
transfer conditions and the new phase's invariant. -/
theorem SysInv_threads_update {sys sys' : SysState} {l₁ l₂ : List Phase} (ph ph' : Phase)
    (hthreads : sys.threads = l₁ ++ ph :: l₂)
    (hac : sys.authCalls ≤ sys'.authCalls)
    (htok : sys.shared.access_token ≠ "" → sys'.shared.access_token ≠ "")
    (hphase : ∀ q ∈ sys.threads, PhaseInv sys q)
    (hnew : PhaseInv sys' ph') :
    ∀ q ∈ l₁ ++ ph' :: l₂, PhaseInv sys' q := by
  intro q hq
  rcases List.mem_append.mp hq with h | h
  · refine PhaseInv_mono hac htok q (hphase q ?_)
    rw [hthreads]
    exact List.mem_append.mpr (Or.inl h)
  · rcases List.mem_cons.mp h with rfl | h
    · exact hnew
    · refine PhaseInv_mono hac htok q (hphase q ?_)
      rw [hthreads]
      exact List.mem_append.mpr (Or.inr (List.mem_cons.mpr (Or.inr h)))

/-- The phase being stepped is a member of the thread list. -/
theorem mem_of_decomp {l₁ l₂ : List Phase} {ph : Phase} :
    ph ∈ l₁ ++ ph :: l₂ :=
  List.mem_append.mpr (Or.inr (List.mem_cons_self _ _))

/-- The invariant is preserved by every step of the scenario. -/
theorem SysInv_step {env : C8Env} {n : Nat} {sys sys' : SysState}
    (hA : env.authResp.access_token ≠ "") (hR : env.refreshResp.access_token ≠ "")
    (hinv : SysInv n sys) (hstep : Step env sys sys') : SysInv n sys' := by
  obtain ⟨hlen, hshared, hphase⟩ := hinv
  cases hstep with
  | start_fast l₁ l₂ hthreads hv =>
    refine ⟨?_, hshared, ?_⟩
    · rw [hthreads] at hlen
      simpa using hlen
    · exact SysInv_threads_update Phase.start Phase.send hthreads (le_refl _)
        (fun h => h) hphase ⟨hv.1, hshared (Or.inl hv.1)⟩
  | start_refresh l₁ l₂ hthreads hv hcr =>
    refine ⟨?_, hshared, ?_⟩
    · rw [hthreads] at hlen
      simpa using hlen
    · exact SysInv_threads_update Phase.start Phase.refreshCall hthreads (le_refl _)
        (fun h => h) hphase (hshared (Or.inr hcr.1))
  | start_auth l₁ l₂ hthreads hv hcr =>
    refine ⟨?_, hshared, ?_⟩
    · rw [hthreads] at hlen
      simpa using hlen
    · exact SysInv_threads_update Phase.start Phase.authCall hthreads (le_refl _)
        (fun h => h) hphase trivial
  | refresh_ok l₁ l₂ hthreads =>
    refine ⟨?_, hshared, ?_⟩
    · rw [hthreads] at hlen
      simpa using hlen
    · exact SysInv_threads_update Phase.refreshCall Phase.storeRefresh hthreads (le_refl _)
        (fun h => h) hphase (hphase Phase.refreshCall (hthreads ▸ mem_of_decomp))
  | refresh_fail l₁ l₂ hthreads =>
    refine ⟨?_, hshared, ?_⟩
    · rw [hthreads] at hlen
      simpa using hlen
    · exact SysInv_threads_update Phase.refreshCall Phase.authCall hthreads (le_refl _)
        (fun h => h) hphase trivial
  | do_store_refresh l₁ l₂ hthreads =>
    have hge : 1 ≤ sys.authCalls :=
      hphase Phase.storeRefresh (hthreads ▸ mem_of_decomp)
    refine ⟨?_, fun _ => hge, ?_⟩
    · rw [hthreads] at hlen
      simpa using hlen
    · exact SysInv_threads_update Phase.storeRefresh Phase.send hthreads (le_refl _)
        (fun _ => hR) hphase ⟨hR, hge⟩
  | do_auth_call l₁ l₂ hthreads =>
    refine ⟨?_, fun _ => Nat.le_add_left 1 _, ?_⟩
    · rw [hthreads] at hlen
      simpa using hlen
    · exact SysInv_threads_update Phase.authCall Phase.storeAuth hthreads (Nat.le_succ _)
        (fun h => h) hphase (Nat.le_add_left 1 _)
  | do_store_auth l₁ l₂ hthreads =>
    have hge : 1 ≤ sys.authCalls :=
      hphase Phase.storeAuth (hthreads ▸ mem_of_decomp)
    refine ⟨?_, fun _ => hge, ?_⟩
    · rw [hthreads] at hlen
      simpa using hlen
    · exact SysInv_threads_update Phase.storeAuth Phase.send hthreads (le_refl _)
        (fun _ => hA) hphase ⟨hA, hge⟩
  | do_send l₁ l₂ hthreads =>
    have hsend : PhaseInv sys Phase.send :=
      hphase Phase.send (hthreads ▸ mem_of_decomp)
    refine ⟨?_, hshared, ?_⟩
    · rw [hthreads] at hlen
      simpa using hlen
    · exact SysInv_threads_update Phase.send (Phase.done sys.shared.access_token) hthreads
        (le_refl _) (fun h => h) hphase ⟨hsend.1, hsend.2⟩

/-- The invariant holds in every reachable state of the scenario. -/
theorem SysInv_reachable {env : C8Env} {n : Nat} {sys : SysState}
    (hA : env.authResp.access_token ≠ "") (hR : env.refreshResp.access_token ≠ "")
    (h : Relation.ReflTransGen (Step env) (initSys n) sys) : SysInv n sys := by
  induction h with
  | refl =>
    refine ⟨by simp [initSys], ?_, ?_⟩
    · intro h
      rcases h with h | h <;> simp [initSys, initialTokenState] at h
    · intro q hq
      have := List.eq_of_mem_replicate hq
      subst this
      trivial
  | tail hsteps hstep ih => exact SysInv_step hA hR ih hstep

/-- Whenever some operation has not yet issued its resource request, a
step is possible. -/
theorem step_progress (env : C8Env) (sys : SysState) (h : ¬ allDone sys) :
    ∃ sys', Step env sys sys' := by
  unfold allDone at h
  push_neg at h
  obtain ⟨ph, hmem, hnd⟩ := h
  obtain ⟨l₁, l₂, heq⟩ := List.append_of_mem hmem
  cases ph with
  | start =>
    by_cases hv : tokenUsable env sys.shared
    · exact ⟨_, Step.start_fast sys l₁ l₂ heq hv⟩
    · by_cases hcr : canRefreshNow env sys.shared
      · exact ⟨_, Step.start_refresh sys l₁ l₂ heq hv hcr⟩
      · exact ⟨_, Step.start_auth sys l₁ l₂ heq hv hcr⟩
  | refreshCall => exact ⟨_, Step.refresh_ok sys l₁ l₂ heq⟩
  | storeRefresh => exact ⟨_, Step.do_store_refresh sys l₁ l₂ heq⟩
  | authCall => exact ⟨_, Step.do_auth_call sys l₁ l₂ heq⟩
  | storeAuth => exact ⟨_, Step.do_store_auth sys l₁ l₂ heq⟩
  | send => exact ⟨_, Step.do_send sys l₁ l₂ heq⟩
  | done b => exact absurd rfl (hnd b)

/-- Every step strictly decreases the termination measure: runs are
finite and end only when all operations are done. -/
theorem step_measure {env : C8Env} {sys sys' : SysState} (hstep : Step env sys sys') :
    sysMeasure sys' < sysMeasure sys := by
  cases hstep <;> simp_all [sysMeasure, phaseRank]

/-- C8: in the benign-server scenario, for every interleaving of 50
operations started immediately after client construction (empty token
state): runs can always proceed until every operation is done and are
finite; once all are done at least one (successful) authentication call
has occurred; and every operation attaches a non-empty bearer access
token to its outbound resource request. -/
theorem c8_concurrent_first_use (env : C8Env) (sys : SysState)
    (hA : env.authResp.access_token ≠ "") (hR : env.refreshResp.access_token ≠ "")
    (hreach : Relation.ReflTransGen (Step env) (initSys 50) sys) :
    (allDone sys → 1 ≤ sys.authCalls) ∧
    (∀ b, Phase.done b ∈ sys.threads → b ≠ "") ∧
    (¬ allDone sys → ∃ sys', Step env sys sys') ∧
    (∀ sys', Step env sys sys' → sysMeasure sys' < sysMeasure sys) := by
  obtain ⟨hlen, hshared, hphase⟩ := SysInv_reachable hA hR hreach
  refine ⟨?_, ?_, fun h => step_progress env sys h, fun sys' h => step_measure h⟩
  · intro hd
    rcases hth : sys.threads with _ | ⟨p, rest⟩
    · rw [hth] at hlen
      simp at hlen
    · have hp : p ∈ sys.threads := by
        rw [hth]
        exact List.mem_cons_self _ _
      obtain ⟨b, rfl⟩ := hd p hp
      exact (hphase _ hp).2
  · intro b hb
    exact (hphase _ hb).1

/-- C8 witness: the scenario with the sample token response, applied at
the initial 50-thread state. -/
theorem c8_concurrent_first_use_witness :
    c8EnvA.authResp.access_token ≠ "" ∧
    c8EnvA.refreshResp.access_token ≠ "" ∧
    ((allDone (initSys 50) → 1 ≤ (initSys 50).authCalls) ∧
     (∀ b, Phase.done b ∈ (initSys 50).threads → b ≠ "") ∧
     (¬ allDone (initSys 50) → ∃ sys', Step c8EnvA (initSys 50) sys') ∧
     (∀ sys', Step c8EnvA (initSys 50) sys' → sysMeasure sys' < sysMeasure (initSys 50))) :=
  ⟨by decide, by decide,
   c8_concurrent_first_use c8EnvA (initSys 50) (by decide) (by decide)
     Relation.ReflTransGen.refl⟩
